import Mathlib

/-!
Verification of the Euclid-database aggregation circuits against their
natural-language specification.

The circuits operate over the Goldilocks prime field.  Circuit build
functions are embedded shallowly: the set of equality constraints a
circuit places on its (already range-checked) public inputs becomes a
`Prop`, and the public inputs it registers for the produced proof become
a function of the children's public inputs.  Hash outputs are only ever
moved, compared, and combined pairwise by these circuits, so they are
modelled by the free binary-tree algebra `HashV` (an uninterpreted
two-to-one hash).
-/

/-- Order of the Goldilocks field used by all circuits (2^64 - 2^32 + 1). -/
abbrev GOLDILOCKS_P : Nat := 18446744069414584321

/-- The native field of the circuits. -/
abbrev F : Type := ZMod GOLDILOCKS_P

/-- Abstract hash values: circuits only compare hashes and feed pairs of
them back into the two-to-one hash, so the free algebra over those
operations is a faithful model. `HashV.node a b` stands for the Poseidon
hash of the concatenation of `a` and `b`. -/
inductive HashV : Type where
  | const : Nat → HashV
  | node : HashV → HashV → HashV
deriving DecidableEq, Repr

/-- Public inputs of a `query_erc20/block` proof, one named field per
fixed-offset slot of the layout in `query_erc20/block/mod.rs`
(block number 1, range 1, root 4, SMC address 5, user address 5,
mapping slot 1, storage slot length 1, query result 8, rewards rate 8;
the root is kept abstract as a `HashV`, packed values are kept as their
limb vectors). -/
structure BlockPI : Type where
  blockNumber : F
  range : F
  root : HashV
  smcAddress : Fin 5 → F
  userAddress : Fin 5 → F
  mappingSlot : F
  mappingSlotLength : F
  queryResults : Fin 8 → F
  rewardsRate : Fin 8 → F

/-- Constraints enforced by `FullNodeCircuit::build`
(`query_erc20/block/full_node.rs` lines 41-85) on the two children's
public inputs: equal user addresses, mapping slots, smart-contract
addresses and slot lengths, adjacency
`left.block_number + 1 == right.block_number - right.range` (field
arithmetic), and equality of the first rewards-rate limb. -/
def fullNodeConstraints (l r : BlockPI) : Prop :=
  l.userAddress = r.userAddress ∧
  l.mappingSlot = r.mappingSlot ∧
  l.smcAddress = r.smcAddress ∧
  l.mappingSlotLength = r.mappingSlotLength ∧
  l.blockNumber + 1 = r.blockNumber - r.range ∧
  l.rewardsRate 0 = r.rewardsRate 0

instance (l r : BlockPI) : Decidable (fullNodeConstraints l r) := by
  unfold fullNodeConstraints
  infer_instance

/-- Public inputs registered by `FullNodeCircuit::build`
(`query_erc20/block/full_node.rs` lines 63-98): block number is the
right child's, range is `right.block_number - (left.block_number -
left.range)`, the root is the hash of the two children's roots, the
identity fields are passed through from the left child, and the new
result has first limb `left.result[0] + right.result[0]` (native field
addition, the uint256 gadget is a TODO in the source) with all other
limbs zeroed. -/
def fullNodeOutput (l r : BlockPI) : BlockPI :=
  { blockNumber := r.blockNumber
    range := r.blockNumber - (l.blockNumber - l.range)
    root := HashV.node l.root r.root
    smcAddress := l.smcAddress
    userAddress := l.userAddress
    mappingSlot := l.mappingSlot
    mappingSlotLength := l.mappingSlotLength
    queryResults := fun i => if i = 0 then l.queryResults 0 + r.queryResults 0 else 0
    rewardsRate := l.rewardsRate }

/-- Modelled from the spec: `utils::less_than(b, x, y, n)` is not under
`src/`; per the spec it computes the boolean `x < y` for values fitting
in `n` bits, so it is modelled as comparison of the canonical field
values (sound on the inputs the callers supply, which are 32-bit). -/
def less_than (x y : F) : Bool :=
  decide (x.val < y.val)

/-- Modelled from the spec: `block::empty_merkle_root` is not under
`src/`; per the spec the genesis root is "a known empty-trie constant
for the configured depth", i.e. the root of the full binary tree of the
given depth whose leaves are the empty constant, built with the
two-to-one hash. -/
def empty_merkle_root : Nat → HashV
  | 0 => HashV.const 0
  | n + 1 => HashV.node (empty_merkle_root n) (empty_merkle_root n)

/-- Public inputs of a block-database proof, as read by the revelation
circuit. Modelled from the spec: the block-db public-input accessors
(`block::public_inputs`) are not under `src/`; the spec describes the
fields the revelation circuit consumes: the initial (genesis) root, the
latest root, the first and latest block numbers (32-bit values), and the
original block header that is passed through. -/
structure BlockDbPI : Type where
  initRoot : HashV
  lastRoot : HashV
  firstBlockNumber : F
  blockNumber : F
  origBlockHeader : List F

/-- Constraints enforced by `RevelationCircuit::build`
(`query_erc20/revelation/circuit.rs` lines 62-97): the aggregation
proof's root equals the block-db proof's root, the block-db initial root
equals the empty-tree constant for the configured depth, the
aggregation proof's minimum block `block_number - range + 1` equals
`select(qmin < B0, B0, qmin)`, and the aggregation proof's block number
equals `select(B1 < qmax, B1, qmax)`. -/
def revelationConstraints (maxDepth : Nat) (db : BlockDbPI) (rp : BlockPI)
    (qmin qmax : F) : Prop :=
  rp.root = db.lastRoot ∧
  db.initRoot = empty_merkle_root maxDepth ∧
  rp.blockNumber - rp.range + 1 =
    (if less_than qmin db.firstBlockNumber then db.firstBlockNumber else qmin) ∧
  rp.blockNumber =
    (if less_than db.blockNumber qmax then db.blockNumber else qmax)

instance (maxDepth : Nat) (db : BlockDbPI) (rp : BlockPI) (qmin qmax : F) :
    Decidable (revelationConstraints maxDepth db rp qmin qmax) := by
  unfold revelationConstraints
  infer_instance

/-- Declared lengths of the `query_erc20/storage` public-input layout
(`query_erc20/storage/public_inputs.rs`): root hash `C` (4), query
address `X` (5), query result `V` (8), rewards rate `R` (8). -/
def STORAGE_C_LEN : Nat := 4

/-- Packed-address length in u32 limbs (5 limbs for an H160 address). -/
def STORAGE_ADDRESS_LEN : Nat := 5

/-- Packed-U256 length in u32 limbs. -/
def STORAGE_U256_LEN : Nat := 8

/-- Declared total length of the storage public-input layout, the sum of
all field lengths (4 + 5 + 8 + 8 = 25). -/
def STORAGE_TOTAL_LEN : Nat :=
  STORAGE_C_LEN + STORAGE_ADDRESS_LEN + STORAGE_U256_LEN + STORAGE_U256_LEN

/-- View over a storage public-input slice, with the fixed-offset
accessors of `query_erc20/storage/public_inputs.rs`. -/
structure StoragePISlice : Type where
  inputs : List F

/-- Accessor `root_hash_raw`: the `C` field at offset 0. -/
def StoragePISlice.root_hash_raw (s : StoragePISlice) : List F :=
  (s.inputs.drop 0).take STORAGE_C_LEN

/-- Accessor `query_user_address_raw`: the `X` field at offset 4. -/
def StoragePISlice.query_user_address_raw (s : StoragePISlice) : List F :=
  (s.inputs.drop STORAGE_C_LEN).take STORAGE_ADDRESS_LEN

/-- Accessor `query_results_raw`: the `V` field at offset 9. -/
def StoragePISlice.query_results_raw (s : StoragePISlice) : List F :=
  (s.inputs.drop (STORAGE_C_LEN + STORAGE_ADDRESS_LEN)).take STORAGE_U256_LEN

/-- Accessor `query_rewards_rate_raw`: the `R` field at offset 17. -/
def StoragePISlice.query_rewards_rate_raw (s : StoragePISlice) : List F :=
  (s.inputs.drop (STORAGE_C_LEN + STORAGE_ADDRESS_LEN + STORAGE_U256_LEN)).take
    STORAGE_U256_LEN

/-- The `From<&[T]>` conversion of the storage public inputs
(`query_erc20/storage/public_inputs.rs` lines 24-29): asserts that the
slice length equals the declared total; the assertion failure (a panic)
is modelled as `none`. -/
def storagePI_from (xs : List F) : Option StoragePISlice :=
  if xs.length = STORAGE_TOTAL_LEN then some ⟨xs⟩ else none

/-- The `from_slice` constructor of the storage public inputs
(`query_erc20/storage/public_inputs.rs` lines 51-58): only asserts that
the slice is at least as long as the declared total. -/
def storagePI_from_slice (xs : List F) : Option StoragePISlice :=
  if STORAGE_TOTAL_LEN ≤ xs.length then some ⟨xs⟩ else none

/-- Modelled from the spec: `poseidon::hash_maybe_swap` is not under
`src/`; per the spec and the caller's comment it hashes the two inputs
in the given order when `swap` is false and in the swapped order when
`swap` is true. -/
def hash_maybe_swap (a b : HashV) (swap : Bool) : HashV :=
  if swap then HashV.node b a else HashV.node a b

/-- Public inputs registered by `InnerNodeCircuit::build`
(`query_erc20/storage/inner.rs` lines 40-66): the root is
`hash_maybe_swap([proved.root, unproved_hash], proved_is_right)` and the
user address, query result and rewards rate are passed through from the
proved child unchanged. The proved child's public inputs are a
`StoragePISlice`; its four decoded fields are received here. -/
structure StorageDecodedPI : Type where
  root : HashV
  userAddress : Fin 5 → F
  queryResults : Fin 8 → F
  rewardsRate : Fin 8 → F

/-- Output public inputs of the partial/inner-node storage circuit. -/
def innerNodeOutput (proved : StorageDecodedPI) (unprovedHash : HashV)
    (provedIsRight : Bool) : StorageDecodedPI :=
  { root := hash_maybe_swap proved.root unprovedHash provedIsRight
    userAddress := proved.userAddress
    queryResults := proved.queryResults
    rewardsRate := proved.rewardsRate }

/-- The `is_equal_u256` gadget (`mrp2-utils/src/u256.rs` lines 316-325):
starting from `false`, it folds over the eight limb pairs, OR-ing the
accumulator with the equality bit of each pair. -/
def is_equal_u256 (left right : Fin 8 → F) : Bool :=
  (List.finRange 8).foldl
    (fun is_eq i => is_eq || decide (left i = right i)) false

/-- One more than the largest representable U256 value. -/
def U256_LIMIT : Nat := 2 ^ 256

/-- The `div_u256` gadget (`mrp2-utils/src/u256.rs` lines 272-305 and
475-487) on canonical values: `UInt256DivGenerator::run_once` supplies
quotient `0` and remainder `dividend` when the divisor is zero and the
Euclidean quotient and remainder otherwise, and the circuit returns them
together with the `is_zero(divisor)` flag. -/
def div_u256 (dividend divisor : Nat) : Nat × Nat × Bool :=
  if divisor = 0 then (0, dividend, true)
  else (dividend / divisor, dividend % divisor, false)

/-- The in-circuit validation constraints that `div_u256` places on the
witnessed quotient and remainder (`mrp2-utils/src/u256.rs` lines
291-302): `remainder < divisor` exactly when the divisor is nonzero,
the reconstruction multiply and add do not overflow 256 bits, and
`dividend == quotient * divisor + remainder`. -/
def divConstraints (dividend divisor quotient remainder : Nat) : Prop :=
  (remainder < divisor ↔ divisor ≠ 0) ∧
  quotient * divisor < U256_LIMIT ∧
  quotient * divisor + remainder < U256_LIMIT ∧
  dividend = quotient * divisor + remainder

/-- The slice of an MPT mapping proof's public inputs that the branch
proof-generation front end reads (`storage/mapping/api.rs`): the MPT key
nibbles and the pointer (`mpt_key_info`), the mapping slot, and the
per-entry digest. The digest lives in an additive group of curve points;
it is modelled from the spec by the integers, an additive group with a
neutral element, since the circuits only add digests and select them
against the neutral element. -/
structure MptPI : Type where
  key : List F
  ptr : F
  mapping_slot : F
  digest : Int
deriving DecidableEq, Repr

/-- Placeholder child used only to give list indexing a default. -/
def dummyMptPI : MptPI :=
  { key := [], ptr := 0, mapping_slot := 0, digest := 0 }

/-- The per-pair key/pointer compatibility check of
`BranchCircuits::generate_proof` (`storage/mapping/api.rs` lines
180-194): both pointers are strictly below their key lengths, the
pointers are equal, and the key nibbles agree up to the pointers. -/
def validPair (a b : MptPI) : Bool :=
  decide (a.ptr.val < a.key.length) &&
  decide (b.ptr.val < b.key.length) &&
  decide (a.ptr = b.ptr) &&
  decide (a.key.take a.ptr.val = b.key.take b.ptr.val)

/-- `child_proofs.windows(2).all(validPair)`: every two consecutive
child proofs pass `validPair`; vacuously true for zero or one child. -/
def pairwiseAll : List MptPI → Bool
  | a :: b :: rest => validPair a b && pairwiseAll (b :: rest)
  | _ => true

/-- Errors of the branch proof-generation front end
(`storage/mapping/api.rs` lines 195-203 and 263), one per `bail!` site:
the key/pointer mismatch ("proofs do not match on the key and/or
pointers"), the child-count check ("No child proofs or too many child
proofs"), the node-length check ("Branch node too long"), and the
unreachable final match arm ("invalid child proof len"). -/
inductive BranchError : Type where
  | keyPointerMismatch : BranchError
  | invalidChildCount : BranchError
  | nodeTooLong : BranchError
  | invalidChildLen : BranchError
deriving DecidableEq, Repr

/-- Arity selection implemented by the macro-generated `match` in
`BranchCircuits::generate_proof` for `impl_branch_circuits!(2, 9, 16)`:
the arms `len == 2`, `len < 2`, `len == 9`, `len < 9`, `len == 16`,
`len < 16` are tried in order. -/
def selectArity (len : Nat) : Option Nat :=
  if len = 2 then some 2
  else if len < 2 then some 2
  else if len = 9 then some 9
  else if len < 9 then some 9
  else if len = 16 then some 16
  else if len < 16 then some 16
  else none

/-- Digest slot selection of the branch circuit. Modelled from the spec:
the branch circuit body (`storage/mapping/branch.rs`) is not under
`src/`; per the spec each of the circuit's child slots contributes its
digest if its index is below the real-children count and the neutral
element otherwise, and the contributions are accumulated. -/
def selectDigests : Nat → List MptPI → Nat → List Int
  | _, [], _ => []
  | i, c :: rest, nb =>
    (if i < nb then c.digest else 0) :: selectDigests (i + 1) rest nb

/-- Accumulated public digest exposed by a branch circuit fed with
`padded` child slots of which the first `nb` are real. -/
def branchCircuitDigest (padded : List MptPI) (nb : Nat) : Int :=
  (selectDigests 0 padded nb).sum

/-- Result of branch proof generation: the arity of the specialized
circuit chosen, the padded child list handed to it, the witnessed
real-proof count, and the public digest and real-count output fields of
the produced proof. -/
structure BranchResult : Type where
  arity : Nat
  paddedChildren : List MptPI
  nb_proofs : Nat
  outDigest : Int
  outCount : Nat
deriving Repr

/-- Front end of `BranchCircuits::generate_proof`
(`storage/mapping/api.rs` lines 170-265): the pairwise key/pointer
check, the child-count check, the node-length check (the configured
maximum `MAX_BRANCH_NODE_LEN` is not under `src/` and is taken as a
parameter), then the macro-generated dispatch that pads the child list
to the selected arity by repeating the first real child. The output
digest and count fields follow the spec-modelled branch circuit body. -/
def branch_generate_proof (maxNodeLen : Nat) (node : List Nat)
    (children : List MptPI) : Except BranchError BranchResult :=
  if pairwiseAll children = false then Except.error BranchError.keyPointerMismatch
  else if children.isEmpty || decide (children.length > 16) then
    Except.error BranchError.invalidChildCount
  else if node.length > maxNodeLen then Except.error BranchError.nodeTooLong
  else
    match selectArity children.length with
    | none => Except.error BranchError.invalidChildLen
    | some arity =>
      let nb := children.length
      let padded :=
        children ++ List.replicate (arity - nb) (children.headD dummyMptPI)
      Except.ok
        { arity := arity
          paddedChildren := padded
          nb_proofs := nb
          outDigest := branchCircuitDigest padded nb
          outCount := nb }

instance : NeZero GOLDILOCKS_P := ⟨by norm_num⟩

/-- Concrete left child for the full-node circuit: covers up to block 5
with range field 2, result value 2^32 (limb 1 set). -/
def exBlockL : BlockPI :=
  { blockNumber := 5
    range := 2
    root := HashV.const 1
    smcAddress := fun _ => 3
    userAddress := fun _ => 4
    mappingSlot := 7
    mappingSlotLength := 9
    queryResults := fun i => if i = 1 then 1 else 0
    rewardsRate := fun _ => 11 }

/-- Concrete right child for the full-node circuit: block 8 with range
field 2, adjacent to `exBlockL` under the circuit's convention
(5 + 1 = 8 - 2). -/
def exBlockR : BlockPI :=
  { blockNumber := 8
    range := 2
    root := HashV.const 2
    smcAddress := fun _ => 3
    userAddress := fun _ => 4
    mappingSlot := 7
    mappingSlotLength := 9
    queryResults := fun i => if i = 1 then 1 else 0
    rewardsRate := fun _ => 11 }

/-- Claim C1 counterexample: a pair of children accepted by the
full-node circuit (they satisfy `b0 + 1 = b1 - r1`) whose merged proof
exposes a range different from `r0 + r1` (it is `r0 + r1 + 1`) and a
result different from the limb-wise sum of the children's results (the
non-zero high limbs are dropped). -/
theorem full_node_range_claim_cex :
    fullNodeConstraints exBlockL exBlockR ∧
    (fullNodeOutput exBlockL exBlockR).range ≠ exBlockL.range + exBlockR.range ∧
    (fullNodeOutput exBlockL exBlockR).queryResults ≠
      fun i => exBlockL.queryResults i + exBlockR.queryResults i := by
  refine ⟨by decide, by decide, ?_⟩
  intro hfn
  have h1 := congrFun hfn 1
  revert h1
  decide

/-- Claim C1 (amended): for children accepted by the full-node circuit,
the merged proof exposes `block_number = b1`, `range = r0 + r1 + 1`,
and a result whose first limb is the native-field sum of the children's
first result limbs with all other limbs zeroed; the constraints are
independent of the result values, so no result-sum overflow can make
proof generation fail. -/
theorem full_node_output_characterization (l r : BlockPI)
    (h : fullNodeConstraints l r) :
    (fullNodeOutput l r).blockNumber = r.blockNumber ∧
    (fullNodeOutput l r).range = l.range + r.range + 1 ∧
    (fullNodeOutput l r).queryResults 0 = l.queryResults 0 + r.queryResults 0 ∧
    (∀ i : Fin 8, i ≠ 0 → (fullNodeOutput l r).queryResults i = 0) ∧
    (∀ v w : Fin 8 → F,
      fullNodeConstraints
        { l with queryResults := v } { r with queryResults := w } ↔
        fullNodeConstraints l r) := by
  obtain ⟨h1, h2, h3, h4, h5, h6⟩ := h
  refine ⟨rfl, ?_, by simp [fullNodeOutput], ?_, ?_⟩
  · show r.blockNumber - (l.blockNumber - l.range) = l.range + r.range + 1
    linear_combination - h5
  · intro i hi
    simp [fullNodeOutput, hi]
  · intro v w
    exact Iff.rfl

/-- Witness for the amended claim C1 at the concrete adjacent pair. -/
theorem full_node_output_characterization_witness :
    (fullNodeOutput exBlockL exBlockR).range =
      exBlockL.range + exBlockR.range + 1 :=
  (full_node_output_characterization exBlockL exBlockR (by decide)).2.1

/-- Claim C7: the full-node circuit only accepts contiguous children:
children accepted by it satisfy
`left.block_number + 1 = right.block_number - right.range` and agree on
the user address, mapping slot, smart-contract address and slot length;
contrapositively, no proof can be generated for children violating any
of these equalities. -/
theorem full_node_adjacency_and_identity (l r : BlockPI)
    (h : fullNodeConstraints l r) :
    l.blockNumber + 1 = r.blockNumber - r.range ∧
    l.userAddress = r.userAddress ∧
    l.mappingSlot = r.mappingSlot ∧
    l.smcAddress = r.smcAddress ∧
    l.mappingSlotLength = r.mappingSlotLength :=
  ⟨h.2.2.2.2.1, h.1, h.2.1, h.2.2.1, h.2.2.2.1⟩

/-- Witness for claim C7 at the concrete adjacent pair. -/
theorem full_node_adjacency_and_identity_witness :
    exBlockL.blockNumber + 1 = exBlockR.blockNumber - exBlockR.range :=
  (full_node_adjacency_and_identity exBlockL exBlockR (by decide)).1

/-- Concrete block-database public inputs: genesis root for depth 3,
covering blocks 10 to 100. -/
def exDb : BlockDbPI :=
  { initRoot := empty_merkle_root 3
    lastRoot := HashV.const 5
    firstBlockNumber := 10
    blockNumber := 100
    origBlockHeader := [] }

/-- Concrete aggregation public inputs matching `exDb` with the query
bounds 30 and 120: covered range is blocks 30 to 100. -/
def exAgg : BlockPI :=
  { blockNumber := 100
    range := 71
    root := HashV.const 5
    smcAddress := fun _ => 0
    userAddress := fun _ => 0
    mappingSlot := 0
    mappingSlotLength := 0
    queryResults := fun _ => 0
    rewardsRate := fun _ => 0 }

/-- Claim C2: the revelation circuit enforces that the aggregation
proof's minimum block `block_number - range + 1` equals
`max(B0, Qmin)` and that its block number equals `min(B1, Qmax)`, where
`B0`/`B1` are the database's first and latest blocks and `Qmin`/`Qmax`
the query's requested bounds. -/
theorem revelation_bound_clamping (maxDepth : Nat) (db : BlockDbPI)
    (rp : BlockPI) (qmin qmax : F)
    (h : revelationConstraints maxDepth db rp qmin qmax) :
    rp.blockNumber - rp.range + 1 =
      ((max db.firstBlockNumber.val qmin.val : Nat) : F) ∧
    rp.blockNumber = ((min db.blockNumber.val qmax.val : Nat) : F) := by
  obtain ⟨-, -, hmin, hmax⟩ := h
  constructor
  · rw [hmin]
    unfold less_than
    by_cases hc : qmin.val < db.firstBlockNumber.val
    · rw [if_pos (by simpa using hc), Nat.max_eq_left (Nat.le_of_lt hc),
        ZMod.natCast_rightInverse db.firstBlockNumber]
    · rw [if_neg (by simpa using hc), Nat.max_eq_right (Nat.le_of_not_lt hc),
        ZMod.natCast_rightInverse qmin]
  · rw [hmax]
    unfold less_than
    by_cases hc : db.blockNumber.val < qmax.val
    · rw [if_pos (by simpa using hc), Nat.min_eq_left (Nat.le_of_lt hc),
        ZMod.natCast_rightInverse db.blockNumber]
    · rw [if_neg (by simpa using hc), Nat.min_eq_right (Nat.le_of_not_lt hc),
        ZMod.natCast_rightInverse qmax]

/-- Witness for claim C2: at the concrete instance the enforced lower
bound is `max(10, 30) = 30`. -/
theorem revelation_bound_clamping_witness :
    exAgg.blockNumber - exAgg.range + 1 =
      ((max exDb.firstBlockNumber.val ((30 : F)).val : Nat) : F) :=
  (revelation_bound_clamping 3 exDb exAgg 30 120 (by decide)).1

/-- Claim C8: the revelation circuit asserts that the aggregation proof
and the block-database proof expose the same root and that the
database's initial root equals the empty-tree constant for the
configured depth; contrapositively, no proof can be generated when
either equality fails. -/
theorem revelation_root_binding (maxDepth : Nat) (db : BlockDbPI)
    (rp : BlockPI) (qmin qmax : F)
    (h : revelationConstraints maxDepth db rp qmin qmax) :
    rp.root = db.lastRoot ∧ db.initRoot = empty_merkle_root maxDepth :=
  ⟨h.1, h.2.1⟩

/-- Witness for claim C8 at the concrete instance. -/
theorem revelation_root_binding_witness :
    exAgg.root = exDb.lastRoot :=
  (revelation_root_binding 3 exDb exAgg 30 120 (by decide)).1

/-- Claim C5: the storage public-input `From` conversion fails exactly
when the slice length differs from the declared total length of the
layout; in particular a slice strictly longer than the declared total is
rejected. -/
theorem storage_pi_from_exact_length :
    (∀ xs : List F, storagePI_from xs = none ↔ xs.length ≠ STORAGE_TOTAL_LEN) ∧
    (∀ xs : List F, STORAGE_TOTAL_LEN < xs.length → storagePI_from xs = none) := by
  have h : ∀ xs : List F,
      storagePI_from xs = none ↔ xs.length ≠ STORAGE_TOTAL_LEN := by
    intro xs
    unfold storagePI_from
    split <;> simp_all
  exact ⟨h, fun xs hlt => (h xs).mpr (by omega)⟩

/-- Witness for claim C5: a slice of 26 elements (one more than the
declared total of 25) is rejected. -/
theorem storage_pi_from_exact_length_witness :
    storagePI_from (List.replicate 26 (0 : F)) = none :=
  storage_pi_from_exact_length.2 (List.replicate 26 (0 : F)) (by decide)

/-- Claim C10: the partial/inner-node storage circuit exposes a root
equal to the hash of the two child hashes in the caller-chosen order
(sibling first when the proved child is on the right, proved child
first otherwise), and passes the user address, query result and rewards
rate through from the proved child unchanged. -/
theorem inner_node_root_and_passthrough (proved : StorageDecodedPI)
    (siblingHash : HashV) (provedIsRight : Bool) :
    (innerNodeOutput proved siblingHash provedIsRight).root =
      (if provedIsRight then HashV.node siblingHash proved.root
       else HashV.node proved.root siblingHash) ∧
    (innerNodeOutput proved siblingHash provedIsRight).userAddress =
      proved.userAddress ∧
    (innerNodeOutput proved siblingHash provedIsRight).queryResults =
      proved.queryResults ∧
    (innerNodeOutput proved siblingHash provedIsRight).rewardsRate =
      proved.rewardsRate := by
  refine ⟨?_, rfl, rfl, rfl⟩
  cases provedIsRight <;> rfl

/-- Limbs of the 256-bit value 1. -/
def exU256L : Fin 8 → F := fun i => if i = 0 then 1 else 0

/-- Limbs of the 256-bit value 2. -/
def exU256R : Fin 8 → F := fun i => if i = 0 then 2 else 0

/-- Claim C4 (failing input): `is_equal_u256` returns `true` on the
distinct values 1 and 2, because their limbs agree at the seven high
positions and the gadget ORs the per-limb equality bits instead of
AND-ing them; this contradicts the gadget's own documentation, which
requires `true` if and only if the two values are equal. -/
theorem is_equal_u256_accepts_unequal :
    is_equal_u256 exU256L exU256R = true ∧ exU256L ≠ exU256R := by
  refine ⟨by decide, ?_⟩
  intro heq
  have h0 := congrFun heq 0
  revert h0
  decide

/-- Claim C6 counterexample: the claim quantifies over every pair whose
product does not overflow, which includes `b = 0`; there
`div_u256(a * 0, 0) = (0, 0, true)`, not `(a, 0, false)`. -/
theorem div_u256_zero_divisor_cex :
    1 * 0 < U256_LIMIT ∧ div_u256 (1 * 0) 0 ≠ (1, 0, false) := by
  constructor
  · show 1 * 0 < 2 ^ 256
    norm_num
  · decide

/-- Claim C6 (amended): for every `a` and nonzero `b` whose product does
not overflow 256 bits, `div_u256 (a * b) b` returns quotient `a`,
remainder `0` and a false division-by-zero flag; and for every `a`,
`div_u256 a 0` returns quotient `0`, remainder `a` and a true
division-by-zero flag. -/
theorem div_u256_inverse_of_mul :
    (∀ a b : Nat, a < U256_LIMIT → b < U256_LIMIT → b ≠ 0 →
      a * b < U256_LIMIT → div_u256 (a * b) b = (a, 0, false)) ∧
    (∀ a : Nat, a < U256_LIMIT → div_u256 a 0 = (0, a, true)) := by
  constructor
  · intro a b _ _ hb _
    unfold div_u256
    rw [if_neg hb, Nat.mul_div_cancel a (Nat.pos_of_ne_zero hb),
      Nat.mul_mod_left a b]
  · intro a _
    rfl

/-- Witness for the amended claim C6 at `a = 3`, `b = 5` and at the
zero divisor with dividend 7. -/
theorem div_u256_inverse_of_mul_witness :
    div_u256 (3 * 5) 5 = (3, 0, false) ∧ div_u256 7 0 = (0, 7, true) :=
  ⟨div_u256_inverse_of_mul.1 3 5 (by norm_num [U256_LIMIT])
      (by norm_num [U256_LIMIT]) (by norm_num) (by norm_num [U256_LIMIT]),
    div_u256_inverse_of_mul.2 7 (by norm_num [U256_LIMIT])⟩

/-- The quotient and remainder supplied by the division witness
generator satisfy the in-circuit validation constraints whenever the
dividend and divisor are genuine 256-bit values. -/
theorem div_u256_meets_constraints (dividend divisor : Nat)
    (h1 : dividend < U256_LIMIT) :
    divConstraints dividend divisor (div_u256 dividend divisor).1
      (div_u256 dividend divisor).2.1 := by
  unfold divConstraints
  by_cases hz : divisor = 0
  · subst hz
    simp only [div_u256, if_pos rfl]
    exact ⟨by simp, by norm_num [U256_LIMIT], by simpa using h1, by simp⟩
  · simp only [div_u256, if_neg hz]
    have hpos : 0 < divisor := Nat.pos_of_ne_zero hz
    have hdm : dividend / divisor * divisor + dividend % divisor = dividend :=
      Nat.div_add_mod' dividend divisor
    have hq : dividend / divisor * divisor ≤ dividend :=
      Nat.div_mul_le_self dividend divisor
    exact ⟨by simp [hz, Nat.mod_lt dividend hpos], by omega, by omega, by omega⟩

theorem selectDigests_sum_of_ge (l : List MptPI) :
    ∀ i nb : Nat, nb ≤ i → (selectDigests i l nb).sum = 0 := by
  induction l with
  | nil =>
    intro i nb _
    simp [selectDigests]
  | cons c rest ih =>
    intro i nb h
    simp only [selectDigests, List.sum_cons, if_neg (by omega : ¬ i < nb)]
    rw [ih (i + 1) nb (by omega)]
    simp

theorem selectDigests_sum_append (l : List MptPI) :
    ∀ (pad : List MptPI) (i : Nat),
      (selectDigests i (l ++ pad) (i + l.length)).sum =
        (l.map MptPI.digest).sum := by
  induction l with
  | nil =>
    intro pad i
    simpa using selectDigests_sum_of_ge pad i i le_rfl
  | cons c rest ih =>
    intro pad i
    simp only [List.cons_append, selectDigests, List.sum_cons, List.map_cons,
      if_pos (by simp : i < i + (c :: rest).length)]
    have harg : i + (c :: rest).length = (i + 1) + rest.length := by
      simp only [List.length_cons]
      omega
    rw [harg]
    simp only [List.append_eq]
    rw [ih pad (i + 1)]

/-- The digest accumulated by a branch circuit over a child list padded
beyond the real-count cutoff is the sum of the real children's digests:
the padded entries are selected against the neutral element. -/
theorem branchCircuitDigest_pad (children pad : List MptPI) :
    branchCircuitDigest (children ++ pad) children.length =
      (children.map MptPI.digest).sum := by
  have h := selectDigests_sum_append children pad 0
  simpa [branchCircuitDigest] using h

theorem selectArity_spec :
    ∀ n : Nat, 1 ≤ n → n ≤ 16 →
      ∃ a : Nat, selectArity n = some a ∧ a ∈ ([2, 9, 16] : List Nat) ∧
        n ≤ a ∧ ∀ b ∈ ([2, 9, 16] : List Nat), n ≤ b → a ≤ b := by
  intro n h1 h2
  interval_cases n <;> exact ⟨_, rfl, by decide, by decide, by decide⟩

/-- Claim C3: for 1 to 16 real children passing the key/pointer check,
branch proof generation succeeds, selects the smallest supported arity
in {2, 9, 16} at least the child count, pads the remaining slots by
duplicating the first real child, and produces a proof whose public
digest is the accumulation of exactly the real children's digests (the
padding duplicates are selected against the neutral element) and whose
real-count output equals the number of real children. -/
theorem branch_arity_padding_digest (maxNodeLen : Nat) (node : List Nat)
    (children : List MptPI) (h1 : 1 ≤ children.length)
    (h2 : children.length ≤ 16) (hv : pairwiseAll children = true)
    (hn : node.length ≤ maxNodeLen) :
    ∃ res : BranchResult,
      branch_generate_proof maxNodeLen node children = Except.ok res ∧
      res.arity ∈ ([2, 9, 16] : List Nat) ∧
      children.length ≤ res.arity ∧
      (∀ b ∈ ([2, 9, 16] : List Nat), children.length ≤ b → res.arity ≤ b) ∧
      res.paddedChildren =
        children ++ List.replicate (res.arity - children.length)
          (children.headD dummyMptPI) ∧
      res.nb_proofs = children.length ∧
      res.outCount = children.length ∧
      res.outDigest = (children.map MptPI.digest).sum := by
  obtain ⟨a, hsel, hmem, hge, hmin⟩ := selectArity_spec children.length h1 h2
  have hne : children.isEmpty = false := by
    cases children with
    | nil => simp at h1
    | cons c rest => rfl
  have hgen :
      branch_generate_proof maxNodeLen node children =
        Except.ok
          { arity := a
            paddedChildren :=
              children ++ List.replicate (a - children.length)
                (children.headD dummyMptPI)
            nb_proofs := children.length
            outDigest :=
              branchCircuitDigest
                (children ++ List.replicate (a - children.length)
                  (children.headD dummyMptPI)) children.length
            outCount := children.length } := by
    unfold branch_generate_proof
    rw [hv]
    rw [if_neg (by simp)]
    rw [if_neg (by simp [hne]; omega)]
    rw [if_neg (by omega)]
    rw [hsel]
  refine ⟨_, hgen, hmem, hge, hmin, rfl, rfl, rfl, ?_⟩
  exact branchCircuitDigest_pad children _

/-- Concrete MPT child public inputs: a key of four nibbles with the
pointer at 2 and digest 5. -/
def exMpt1 : MptPI :=
  { key := [1, 1, 1, 1], ptr := 2, mapping_slot := 3, digest := 5 }

/-- Witness for claim C3: a single real child is proven with the arity-2
circuit, padded with one duplicate, and the output digest is the single
child's digest. -/
theorem branch_arity_padding_digest_witness :
    ∃ res : BranchResult,
      branch_generate_proof 10 [] [exMpt1] = Except.ok res ∧
      res.arity ∈ ([2, 9, 16] : List Nat) ∧
      ([exMpt1] : List MptPI).length ≤ res.arity ∧
      (∀ b ∈ ([2, 9, 16] : List Nat),
        ([exMpt1] : List MptPI).length ≤ b → res.arity ≤ b) ∧
      res.paddedChildren =
        [exMpt1] ++ List.replicate (res.arity - ([exMpt1] : List MptPI).length)
          (([exMpt1] : List MptPI).headD dummyMptPI) ∧
      res.nb_proofs = ([exMpt1] : List MptPI).length ∧
      res.outCount = ([exMpt1] : List MptPI).length ∧
      res.outDigest = (([exMpt1] : List MptPI).map MptPI.digest).sum :=
  branch_arity_padding_digest 10 [] [exMpt1] (by decide) (by decide)
    (by decide) (by decide)

theorem pairwiseAll_eq_false_iff (l : List MptPI) :
    pairwiseAll l = false ↔
      ∃ i : Nat, i + 1 < l.length ∧
        validPair (l.getD i dummyMptPI) (l.getD (i + 1) dummyMptPI) = false := by
  induction l with
  | nil => simp [pairwiseAll]
  | cons a rest ih =>
    cases rest with
    | nil => simp [pairwiseAll]
    | cons b rest2 =>
      constructor
      · intro h
        rw [pairwiseAll, Bool.and_eq_false_iff] at h
        cases h with
        | inl hab =>
          exact ⟨0, by simp, by simpa using hab⟩
        | inr hrest =>
          obtain ⟨i, hi, hvi⟩ := ih.mp hrest
          refine ⟨i + 1, by simp at hi ⊢; omega, ?_⟩
          simpa using hvi
      · rintro ⟨i, hi, hvi⟩
        rw [pairwiseAll, Bool.and_eq_false_iff]
        cases i with
        | zero =>
          exact Or.inl (by simpa using hvi)
        | succ j =>
          refine Or.inr (ih.mpr ⟨j, ?_, ?_⟩)
          · simp at hi ⊢
            omega
          · simpa using hvi

/-- Claim C9: branch proof generation returns the key/pointer mismatch
error, before invoking any circuit, whenever some two consecutive child
proofs fail the compatibility check (identical pointers, identical key
prefixes up to the pointers, pointers strictly below the key lengths);
with a single child proof this check never fires. -/
theorem branch_key_pointer_precheck :
    (∀ (maxNodeLen : Nat) (node : List Nat) (children : List MptPI) (i : Nat),
      i + 1 < children.length →
      validPair (children.getD i dummyMptPI)
          (children.getD (i + 1) dummyMptPI) = false →
      branch_generate_proof maxNodeLen node children =
        Except.error BranchError.keyPointerMismatch) ∧
    (∀ (maxNodeLen : Nat) (node : List Nat) (c : MptPI),
      branch_generate_proof maxNodeLen node [c] ≠
        Except.error BranchError.keyPointerMismatch) := by
  constructor
  · intro maxNodeLen node children i hi hv
    have hfalse : pairwiseAll children = false :=
      (pairwiseAll_eq_false_iff children).mpr ⟨i, hi, hv⟩
    unfold branch_generate_proof
    rw [hfalse]
    rfl
  · intro maxNodeLen node c
    have hp : pairwiseAll [c] = true := rfl
    unfold branch_generate_proof
    rw [hp]
    simp only [Bool.true_eq_false, if_false, List.isEmpty_cons, List.length_cons,
      List.length_nil, Bool.false_or]
    split
    · simp
    · split
      · simp
      · rw [show selectArity 1 = some 2 from rfl]
        simp

/-- First child of an invalid consecutive pair: pointer 0. -/
def exMptBad1 : MptPI :=
  { key := [1, 1], ptr := 0, mapping_slot := 0, digest := 0 }

/-- Second child of an invalid consecutive pair: pointer 1, so the two
pointers differ. -/
def exMptBad2 : MptPI :=
  { key := [1, 1], ptr := 1, mapping_slot := 0, digest := 0 }

/-- Witness for claim C9: two children with different pointers make
branch proof generation fail with the key/pointer mismatch error. -/
theorem branch_key_pointer_precheck_witness :
    branch_generate_proof 0 [] [exMptBad1, exMptBad2] =
      Except.error BranchError.keyPointerMismatch :=
  branch_key_pointer_precheck.1 0 [] [exMptBad1, exMptBad2] 0 (by decide)
    (by decide)
